import Mathlib

/-!
Shallow embedding of the reserv-backend recommendation pipeline.

The embedded code comes from:
* `src/agentic_ai/utils.py` — `filter_blacklisted_restaurants`, `score_restaurant`;
* `src/agentic_ai/restaurant_planner.py` — `discover_restaurants` (the
  filter → score → stable descending sort → take-5 pipeline);
* `src/services/ai_agent.py` — the attendee-preference aggregation in
  `AIAgentService.generate_recommendations` (alcohol flag).

Python dictionaries with optional keys are embedded as structures whose
optional keys are `Option` fields; `dict.get(k, default)` becomes
`Option.getD`.  Python's `str.lower()` / `str.strip()` are embedded as
character-list maps (`pyLower`, `pyStrip`), Python's substring test
`a in b` as `containsSub`, and Python floats as exact rationals `ℚ`
(all arithmetic performed by the embedded code — adding 2.0, 1.5, 1.0,
`rating / 2`, integer set cardinalities, and ≤-comparisons — is exact on
these values, so `ℚ` is a faithful model of it).  `list.sort(reverse=True,
key=score)` is embedded as a stable descending insertion sort, which agrees
with Python's stable sort semantics.
-/

/-- Embedding of Python `str.lower()`: lower-case every character. -/
def pyLower (s : String) : String := ⟨s.data.map Char.toLower⟩

/-- Strip leading and trailing whitespace from a character list. -/
def stripChars (l : List Char) : List Char :=
  ((l.dropWhile Char.isWhitespace).reverse.dropWhile Char.isWhitespace).reverse

/-- Embedding of Python `str.strip()`. -/
def pyStrip (s : String) : String := ⟨stripChars s.data⟩

/-- Embedding of Python's `x.lower().strip()` normalization used by the
blacklist filter. -/
def pyNorm (s : String) : String := pyStrip (pyLower s)

/-- Embedding of Python's substring test `needle in hay` on strings
(character lists).  The empty needle is contained in everything. -/
def containsSub (needle : List Char) : List Char → Bool
  | [] => needle.isEmpty
  | c :: t => needle.isPrefixOf (c :: t) || containsSub needle t

/-- The `address_obj` sub-dictionary of a Firestore restaurant document
(`street` / `city` / `state` / `country` keys; a missing key reads as `""`
via `address_obj.get(k, '')`). -/
structure AddressObj where
  street : String := ""
  city : String := ""
  state : String := ""
  country : String := ""
deriving DecidableEq

/-- A restaurant document as read from the Firestore pool
(`src/agentic_ai/models.py` schema).  `location_id` is the stable
restaurant identity; the code treats a missing or empty `location_id` as
absent (Python truthiness), so it is embedded as a `String` with `""`
for "absent".  `price_level` keeps its key-present/absent distinction. -/
structure Restaurant where
  location_id : String := ""
  name : String := ""
  address_obj : AddressObj := {}
  cuisine : List String := []
  price_level : Option String := none
  rating : ℚ := 0
deriving DecidableEq

/-- A dislike (blacklist) record.  All four keys are optional in the
stored dictionaries, and `is_active` defaults to `True` when absent
(`dislike.get('is_active', True)`). -/
structure Dislike where
  is_active : Option Bool := none
  location_id : Option String := none
  restaurant_name : Option String := none
  restaurant_address : Option String := none
deriving DecidableEq

/-- The parsed criteria record handed to `score_restaurant` (the planner
state after `parse_input` has substituted its defaults). -/
structure ParsedInput where
  location_preference : String := ""
  cuisine_preferences : List String := []
  budget_min : ℚ := 0
  budget_max : ℚ := 1000
  attendee_count : Nat := 0
deriving DecidableEq

/-- Output entry of the pipeline (`RestaurantRecommendation` in
`src/agentic_ai/models.py`). -/
structure RestaurantRecommendation where
  restaurant : Restaurant
  score : ℚ
  reasoning : String
deriving DecidableEq

/-- `dislike.get('is_active', True)`. -/
def dislikeActive (d : Dislike) : Bool := d.is_active.getD true

/-- The `blacklisted_location_ids` set built by
`filter_blacklisted_restaurants`: the `location_id` of every active
dislike that carries that key. -/
def blacklistedLocationIds (dislikes : List Dislike) : List String :=
  (dislikes.filter dislikeActive).filterMap (fun d => d.location_id)

/-- The `blacklisted_restaurants` set of normalized `(name, address)`
pairs built by `filter_blacklisted_restaurants`: contributed by every
active dislike that carries both the `restaurant_name` and the
`restaurant_address` keys (independently of whether it also carries a
`location_id`). -/
def blacklistedPairs (dislikes : List Dislike) : List (String × String) :=
  (dislikes.filter dislikeActive).filterMap (fun d =>
    match d.restaurant_name, d.restaurant_address with
    | some n, some a => some (pyNorm n, pyNorm a)
    | _, _ => none)

/-- `restaurant.get('name', '').lower().strip()`. -/
def restaurantNameNorm (r : Restaurant) : String := pyNorm r.name

/-- The candidate-side normalized address: join the non-empty address
components with `", "`, then lower-case and strip. -/
def restaurantAddressString (r : Restaurant) : String :=
  pyNorm (String.intercalate ", "
    (([r.address_obj.street, r.address_obj.city, r.address_obj.state,
       r.address_obj.country]).filter (fun s => s != "")))

/-- The per-candidate blacklist test of `filter_blacklisted_restaurants`:
first the identity check (`location_id` truthy and in the id set), then —
whenever the identity check did not fire — the normalized
`(name, address)` pair check. -/
def isBlacklisted (ids : List String) (pairs : List (String × String))
    (r : Restaurant) : Bool :=
  (r.location_id != "" && ids.contains r.location_id)
    || pairs.contains (restaurantNameNorm r, restaurantAddressString r)

/-- `filter_blacklisted_restaurants` from `src/agentic_ai/utils.py`:
with no dislikes the pool is returned as is; otherwise the candidates
that match the blacklist sets are dropped, preserving pool order. -/
def filter_blacklisted_restaurants (restaurants : List Restaurant)
    (dislikes : List Dislike) : List Restaurant :=
  if dislikes.isEmpty then restaurants
  else
    restaurants.filter (fun r =>
      !(isBlacklisted (blacklistedLocationIds dislikes)
        (blacklistedPairs dislikes) r))

/-- Claim-side predicate: the dislike matches the candidate by restaurant
identity (the dislike carries a `location_id` equal to the candidate's
truthy `location_id`). -/
def matchesByIdentity (d : Dislike) (r : Restaurant) : Bool :=
  match d.location_id with
  | some i => r.location_id != "" && i == r.location_id
  | none => false

/-- Claim-side predicate: the dislike matches the candidate by normalized
(lower-cased, trimmed) name and address. -/
def matchesByNameAddress (d : Dislike) (r : Restaurant) : Bool :=
  match d.restaurant_name, d.restaurant_address with
  | some n, some a =>
      pyNorm n == restaurantNameNorm r && pyNorm a == restaurantAddressString r
  | _, _ => false

/-- The `price_levels` dictionary of `score_restaurant`
(`{"$": 25, "$$": 50, "$$$": 100, "$$$$": 200}`). -/
def priceLevels (s : String) : Option ℚ :=
  if s = "$" then some 25
  else if s = "$$" then some 50
  else if s = "$$$" then some 100
  else if s = "$$$$" then some 200
  else none

/-- `price_levels.get(restaurant.get("price_level", "$$"), 50)`. -/
def restPrice (r : Restaurant) : ℚ :=
  (priceLevels (r.price_level.getD "$$")).getD 50

/-- Location condition of `score_restaurant`: the candidate city is
non-empty and the lower-cased criteria location is a substring of the
lower-cased city. -/
def locationCond (r : Restaurant) (p : ParsedInput) : Bool :=
  r.address_obj.city != ""
    && containsSub (pyLower p.location_preference).data
        (pyLower r.address_obj.city).data

/-- Gate of the cuisine sub-score: both tag lists non-empty and the
literal `"Any"` not among the criteria tags. -/
def cuisineCond (r : Restaurant) (p : ParsedInput) : Bool :=
  !r.cuisine.isEmpty && !p.cuisine_preferences.isEmpty
    && !(p.cuisine_preferences.contains "Any")

/-- The case-insensitive set intersection
`set(lower(restaurant.cuisine)) ∩ set(lower(criteria.cuisines))`,
represented as a duplicate-free list of lowered candidate tags that occur
among the lowered criteria tags (its length is the intersection's
cardinality). -/
def matchingCuisines (r : Restaurant) (p : ParsedInput) : List String :=
  ((r.cuisine.map pyLower).dedup).filter
    (fun c => (p.cuisine_preferences.map pyLower).contains c)

/-- Location block of `score_restaurant` acting on the running
(score, reasons) accumulator. -/
def locStep (r : Restaurant) (p : ParsedInput) (acc : ℚ × List String) :
    ℚ × List String :=
  if locationCond r p then
    (acc.1 + 2, acc.2 ++ ["Location matches " ++ p.location_preference])
  else acc

/-- Cuisine block of `score_restaurant`: inside the gate, the
intersection cardinality is added (and a reason recorded) when the
intersection is non-empty. -/
def cuisineStep (r : Restaurant) (p : ParsedInput) (acc : ℚ × List String) :
    ℚ × List String :=
  if cuisineCond r p then
    if !(matchingCuisines r p).isEmpty then
      (acc.1 + ((matchingCuisines r p).length : ℚ),
        acc.2 ++ ["Matches cuisines: "
          ++ String.intercalate ", " (matchingCuisines r p)])
    else acc
  else acc

/-- Budget block of `score_restaurant` (+1.5 when the representative
price is inside `[budget_min, budget_max]`). -/
def priceStep (r : Restaurant) (p : ParsedInput) (acc : ℚ × List String) :
    ℚ × List String :=
  if p.budget_min ≤ restPrice r ∧ restPrice r ≤ p.budget_max then
    (acc.1 + 3 / 2,
      acc.2 ++ ["Price level " ++ r.price_level.getD "$$"
        ++ " within budget range"])
  else acc

/-- Rating block of `score_restaurant` (+rating/2 when rating > 0). -/
def ratingStep (r : Restaurant) (acc : ℚ × List String) : ℚ × List String :=
  if 0 < r.rating then
    (acc.1 + r.rating / 2,
      acc.2 ++ ["Rating bonus: " ++ toString r.rating ++ "/5 stars"])
  else acc

/-- Group-size block of `score_restaurant` (+1.0 when the party size is
at most 20). -/
def sizeStep (p : ParsedInput) (acc : ℚ × List String) : ℚ × List String :=
  if p.attendee_count ≤ 20 then
    (acc.1 + 1,
      acc.2 ++ ["Can accommodate group of " ++ toString p.attendee_count])
  else acc

/-- Final block of `score_restaurant`: when no reason was collected the
reasoning defaults to the single fragment `"General recommendation"`. -/
def defaultStep (acc : ℚ × List String) : ℚ × List String :=
  if acc.2.isEmpty then (acc.1, ["General recommendation"]) else acc

/-- `score_restaurant` before joining the reasons: the five sub-score
blocks applied in program order to the accumulator `(0.0, [])`, then the
default fragment. -/
def score_restaurant_core (r : Restaurant) (p : ParsedInput) :
    ℚ × List String :=
  defaultStep (sizeStep p (ratingStep r (priceStep r p
    (cuisineStep r p (locStep r p (0, []))))))

/-- `score_restaurant` from `src/agentic_ai/utils.py`: the accumulated
score together with the reasons joined by `" | "`. -/
def score_restaurant (r : Restaurant) (p : ParsedInput) : ℚ × String :=
  ((score_restaurant_core r p).1,
    String.intercalate " | " (score_restaurant_core r p).2)

/-- Specification-side location sub-score. -/
def locationSub (r : Restaurant) (p : ParsedInput) : ℚ :=
  if locationCond r p then 2 else 0

/-- Specification-side cuisine sub-score (the intersection cardinality
under the gate; an empty intersection contributes 0 either way). -/
def cuisineSub (r : Restaurant) (p : ParsedInput) : ℚ :=
  if cuisineCond r p then ((matchingCuisines r p).length : ℚ) else 0

/-- Specification-side price-fit sub-score. -/
def priceSub (r : Restaurant) (p : ParsedInput) : ℚ :=
  if p.budget_min ≤ restPrice r ∧ restPrice r ≤ p.budget_max then 3 / 2 else 0

/-- Specification-side rating sub-score. -/
def ratingSub (r : Restaurant) : ℚ :=
  if 0 < r.rating then r.rating / 2 else 0

/-- Specification-side group-size sub-score. -/
def sizeSub (p : ParsedInput) : ℚ :=
  if p.attendee_count ≤ 20 then 1 else 0

/-- The `(score, restaurant, reasoning)` triples sorted by
`discover_restaurants`. -/
abbrev Scored := ℚ × Restaurant × String

/-- Stable descending insertion: the new element is placed before the
first element whose score is ≤ its own, so earlier pool elements stay
ahead of later ones when scores tie. -/
def insertDesc (x : Scored) : List Scored → List Scored
  | [] => [x]
  | y :: ys => if y.1 ≤ x.1 then x :: y :: ys else y :: insertDesc x ys

/-- Embedding of `scored_restaurants.sort(reverse=True, key=lambda x:
x[0])`: the unique stable permutation sorted by score descending. -/
def sortDesc : List Scored → List Scored
  | [] => []
  | x :: xs => insertDesc x (sortDesc xs)

/-- The scoring pass of `discover_restaurants`: one
`(score, restaurant, reasoning)` triple per surviving candidate, in pool
order. -/
def scoredList (restaurants : List Restaurant) (p : ParsedInput) :
    List Scored :=
  restaurants.map (fun r =>
    ((score_restaurant r p).1, r, (score_restaurant r p).2))

/-- `discover_restaurants` from `src/agentic_ai/restaurant_planner.py`,
restricted to its data path: blacklist-filter the pool, score every
survivor, sort by score descending (stable), take the top 5, and package
them as recommendations.  The function is total: an empty pool or a fully
blacklisted pool yields the empty recommendation list, not a failure. -/
def discover_restaurants (pool : List Restaurant) (dislikes : List Dislike)
    (p : ParsedInput) : List RestaurantRecommendation :=
  ((sortDesc (scoredList (filter_blacklisted_restaurants pool dislikes) p)).take 5).map
    (fun t => { restaurant := t.2.1, score := t.1, reasoning := t.2.2 })

/-- An attendee preference record as consumed by
`AIAgentService.generate_recommendations`
(`pref.get('alcohol_preference', 'no-preference')`). -/
structure AttendeePreference where
  dietary_restrictions : List String := []
  alcohol_preference : Option String := none
  location_override : Option String := none
deriving DecidableEq

/-- The `alcohol_preferences` list accumulated by
`generate_recommendations`. -/
def alcoholPreferences (prefs : List AttendeePreference) : List String :=
  prefs.map (fun q => q.alcohol_preference.getD "no-preference")

/-- `alcohol_required = 'alcoholic' in alcohol_preferences` from
`src/services/ai_agent.py`. -/
def alcohol_required (prefs : List AttendeePreference) : Bool :=
  (alcoholPreferences prefs).contains "alcoholic"

/-! ### Helper lemmas about the blacklist filter -/

lemma mem_blacklistedLocationIds {dislikes : List Dislike} {d : Dislike}
    {i : String} (hd : d ∈ dislikes) (ha : dislikeActive d = true)
    (hi : d.location_id = some i) : i ∈ blacklistedLocationIds dislikes := by
  unfold blacklistedLocationIds
  exact List.mem_filterMap.mpr ⟨d, List.mem_filter.mpr ⟨hd, ha⟩, hi⟩

lemma mem_blacklistedPairs {dislikes : List Dislike} {d : Dislike}
    {n a : String} (hd : d ∈ dislikes) (ha : dislikeActive d = true)
    (hn : d.restaurant_name = some n) (haddr : d.restaurant_address = some a) :
    (pyNorm n, pyNorm a) ∈ blacklistedPairs dislikes := by
  unfold blacklistedPairs
  refine List.mem_filterMap.mpr ⟨d, List.mem_filter.mpr ⟨hd, ha⟩, ?_⟩
  rw [hn, haddr]

lemma matches_isBlacklisted {dislikes : List Dislike} {d : Dislike}
    {r : Restaurant} (hd : d ∈ dislikes) (ha : dislikeActive d = true)
    (hm : matchesByIdentity d r = true ∨ matchesByNameAddress d r = true) :
    isBlacklisted (blacklistedLocationIds dislikes) (blacklistedPairs dislikes)
      r = true := by
  unfold isBlacklisted
  rcases hm with h | h
  · unfold matchesByIdentity at h
    cases hil : d.location_id with
    | none => rw [hil] at h; exact absurd h (by simp)
    | some i =>
      rw [hil] at h
      have h1 : r.location_id != "" := (Bool.and_eq_true _ _).mp h |>.1
      have h2 : i = r.location_id := by
        have := (Bool.and_eq_true _ _).mp h |>.2
        exact beq_iff_eq.mp this
      have hmem : r.location_id ∈ blacklistedLocationIds dislikes :=
        h2 ▸ mem_blacklistedLocationIds hd ha hil
      simp [h1, hmem]
  · unfold matchesByNameAddress at h
    cases hn : d.restaurant_name with
    | none => rw [hn] at h; exact absurd h (by simp)
    | some n =>
      cases haddr : d.restaurant_address with
      | none => rw [hn, haddr] at h; exact absurd h (by simp)
      | some a =>
        rw [hn, haddr] at h
        have h1 : pyNorm n = restaurantNameNorm r :=
          beq_iff_eq.mp ((Bool.and_eq_true _ _).mp h).1
        have h2 : pyNorm a = restaurantAddressString r :=
          beq_iff_eq.mp ((Bool.and_eq_true _ _).mp h).2
        have hmem : (restaurantNameNorm r, restaurantAddressString r)
            ∈ blacklistedPairs dislikes :=
          h1 ▸ h2 ▸ mem_blacklistedPairs hd ha hn haddr
        simp [hmem]

lemma not_mem_filter_blacklisted {pool dislikes} {d : Dislike}
    {c : Restaurant} (hd : d ∈ dislikes) (ha : dislikeActive d = true)
    (hm : matchesByIdentity d c = true ∨ matchesByNameAddress d c = true) :
    c ∉ filter_blacklisted_restaurants pool dislikes := by
  intro hmem
  unfold filter_blacklisted_restaurants at hmem
  have hne : dislikes.isEmpty = false := by
    cases dislikes with
    | nil => cases hd
    | cons e tl => rfl
  rw [hne] at hmem
  simp only [Bool.false_eq_true, if_false] at hmem
  have := (List.mem_filter.mp hmem).2
  rw [matches_isBlacklisted hd ha hm] at this
  exact absurd this (by simp)

/-! ### Helper lemmas about the stable descending sort -/

lemma insertDesc_perm (x : Scored) (l : List Scored) :
    List.Perm (insertDesc x l) (x :: l) := by
  induction l with
  | nil => exact List.Perm.refl _
  | cons y ys ih =>
    unfold insertDesc
    split
    · exact List.Perm.refl _
    · exact List.Perm.trans (List.Perm.cons y ih) (List.Perm.swap x y ys)

lemma sortDesc_perm (l : List Scored) : List.Perm (sortDesc l) l := by
  induction l with
  | nil => exact List.Perm.refl _
  | cons x xs ih =>
    exact List.Perm.trans (insertDesc_perm x (sortDesc xs)) (List.Perm.cons x ih)

lemma pairwise_insertDesc {x : Scored} {l : List Scored}
    (h : l.Pairwise (fun a b => b.1 ≤ a.1)) :
    (insertDesc x l).Pairwise (fun a b => b.1 ≤ a.1) := by
  induction l with
  | nil => simp [insertDesc]
  | cons y ys ih =>
    rcases List.pairwise_cons.mp h with ⟨hy, hys⟩
    unfold insertDesc
    split
    · rename_i hc
      refine List.pairwise_cons.mpr ⟨?_, h⟩
      intro z hz
      rcases List.mem_cons.mp hz with hz | hz
      · exact hz ▸ hc
      · exact le_trans (hy z hz) hc
    · rename_i hc
      have hxy : x.1 ≤ y.1 := le_of_lt (lt_of_not_le hc)
      refine List.pairwise_cons.mpr ⟨?_, ih hys⟩
      intro z hz
      have hz2 : z ∈ x :: ys := (insertDesc_perm x ys).mem_iff.mp hz
      rcases List.mem_cons.mp hz2 with hz2 | hz2
      · exact hz2 ▸ hxy
      · exact hy z hz2

lemma sortDesc_pairwise (l : List Scored) :
    (sortDesc l).Pairwise (fun a b => b.1 ≤ a.1) := by
  induction l with
  | nil => simp [sortDesc]
  | cons x xs ih => exact pairwise_insertDesc ih

lemma filter_insertDesc (s : ℚ) (x : Scored) (l : List Scored) :
    (insertDesc x l).filter (fun z => z.1 == s)
      = if x.1 == s then x :: l.filter (fun z => z.1 == s)
        else l.filter (fun z => z.1 == s) := by
  induction l with
  | nil =>
    cases hx : x.1 == s <;> simp [insertDesc, List.filter, hx]
  | cons y ys ih =>
    unfold insertDesc
    split
    · rw [List.filter_cons]
    · rename_i hc
      cases hx : x.1 == s with
      | false =>
        rw [List.filter_cons, List.filter_cons, ih, hx]
        simp
      | true =>
        have hy : (y.1 == s) = false := by
          cases hyy : y.1 == s with
          | false => rfl
          | true =>
            exact absurd
              (le_of_eq ((beq_iff_eq.mp hyy).trans (beq_iff_eq.mp hx).symm)) hc
        rw [List.filter_cons, List.filter_cons, hy, ih, hx]
        simp

/-! ### Helper lemmas about the scoring blocks -/

lemma defaultStep_fst (acc : ℚ × List String) : (defaultStep acc).1 = acc.1 := by
  unfold defaultStep
  split <;> rfl

lemma locStep_fst (r : Restaurant) (p : ParsedInput) (acc : ℚ × List String) :
    (locStep r p acc).1 = acc.1 + locationSub r p := by
  unfold locStep locationSub
  split <;> simp

lemma cuisineStep_fst (r : Restaurant) (p : ParsedInput)
    (acc : ℚ × List String) :
    (cuisineStep r p acc).1 = acc.1 + cuisineSub r p := by
  unfold cuisineStep cuisineSub
  split
  · split
    · rfl
    · rename_i hm
      have : matchingCuisines r p = [] := by
        simpa using hm
      simp [this]
  · simp

lemma priceStep_fst (r : Restaurant) (p : ParsedInput)
    (acc : ℚ × List String) :
    (priceStep r p acc).1 = acc.1 + priceSub r p := by
  unfold priceStep priceSub
  split <;> simp

lemma ratingStep_fst (r : Restaurant) (acc : ℚ × List String) :
    (ratingStep r acc).1 = acc.1 + ratingSub r := by
  unfold ratingStep ratingSub
  split <;> simp

lemma sizeStep_fst (p : ParsedInput) (acc : ℚ × List String) :
    (sizeStep p acc).1 = acc.1 + sizeSub p := by
  unfold sizeStep sizeSub
  split <;> simp

lemma score_restaurant_fst (r : Restaurant) (p : ParsedInput) :
    (score_restaurant r p).1
      = locationSub r p + cuisineSub r p + priceSub r p + ratingSub r
        + sizeSub p := by
  show (score_restaurant_core r p).1 = _
  unfold score_restaurant_core
  rw [defaultStep_fst, sizeStep_fst, ratingStep_fst, priceStep_fst,
    cuisineStep_fst, locStep_fst]
  ring

lemma locationSub_nonneg (r : Restaurant) (p : ParsedInput) :
    0 ≤ locationSub r p := by
  unfold locationSub
  split <;> norm_num

lemma cuisineSub_nonneg (r : Restaurant) (p : ParsedInput) :
    0 ≤ cuisineSub r p := by
  unfold cuisineSub
  split
  · positivity
  · norm_num

lemma priceSub_nonneg (r : Restaurant) (p : ParsedInput) :
    0 ≤ priceSub r p := by
  unfold priceSub
  split <;> norm_num

lemma ratingSub_nonneg (r : Restaurant) : 0 ≤ ratingSub r := by
  unfold ratingSub
  split
  · rename_i h
    linarith
  · norm_num

lemma sizeSub_nonneg (p : ParsedInput) : 0 ≤ sizeSub p := by
  unfold sizeSub
  split <;> norm_num

lemma core_snd_ne_nil (r : Restaurant) (p : ParsedInput) :
    (score_restaurant_core r p).2 ≠ [] := by
  unfold score_restaurant_core defaultStep
  split
  · simp
  · rename_i h
    simpa using h

lemma locStep_of_zero {r : Restaurant} {p : ParsedInput}
    (h : locationSub r p = 0) (acc : ℚ × List String) :
    locStep r p acc = acc := by
  unfold locStep
  unfold locationSub at h
  split
  · rename_i hc
    rw [if_pos hc] at h
    norm_num at h
  · rfl

lemma cuisineStep_of_zero {r : Restaurant} {p : ParsedInput}
    (h : cuisineSub r p = 0) (acc : ℚ × List String) :
    cuisineStep r p acc = acc := by
  unfold cuisineStep
  unfold cuisineSub at h
  split
  · rename_i hc
    rw [if_pos hc] at h
    have hm : matchingCuisines r p = [] := by
      have hlen : (matchingCuisines r p).length = 0 := by
        exact_mod_cast h
      exact List.length_eq_zero.mp hlen
    simp [hm]
  · rfl

lemma priceStep_of_zero {r : Restaurant} {p : ParsedInput}
    (h : priceSub r p = 0) (acc : ℚ × List String) :
    priceStep r p acc = acc := by
  unfold priceStep
  unfold priceSub at h
  split
  · rename_i hc
    rw [if_pos hc] at h
    norm_num at h
  · rfl

lemma ratingStep_of_zero {r : Restaurant}
    (h : ratingSub r = 0) (acc : ℚ × List String) :
    ratingStep r acc = acc := by
  unfold ratingStep
  unfold ratingSub at h
  split
  · rename_i hc
    rw [if_pos hc] at h
    have : r.rating = 0 := by linarith
    exact absurd this (by intro hz; rw [hz] at hc; exact lt_irrefl 0 hc)
  · rfl

lemma sizeStep_of_zero {p : ParsedInput}
    (h : sizeSub p = 0) (acc : ℚ × List String) :
    sizeStep p acc = acc := by
  unfold sizeStep
  unfold sizeSub at h
  split
  · rename_i hc
    rw [if_pos hc] at h
    norm_num at h
  · rfl

lemma score_zero_default {r : Restaurant} {p : ParsedInput}
    (h : (score_restaurant r p).1 = 0) :
    score_restaurant r p = (0, "General recommendation") := by
  have hsum := score_restaurant_fst r p
  rw [h] at hsum
  have hl := locationSub_nonneg r p
  have hc := cuisineSub_nonneg r p
  have hp := priceSub_nonneg r p
  have hr := ratingSub_nonneg r
  have hs := sizeSub_nonneg p
  have hl0 : locationSub r p = 0 := by linarith
  have hc0 : cuisineSub r p = 0 := by linarith
  have hp0 : priceSub r p = 0 := by linarith
  have hr0 : ratingSub r = 0 := by linarith
  have hs0 : sizeSub p = 0 := by linarith
  have hcore : score_restaurant_core r p = (0, ["General recommendation"]) := by
    unfold score_restaurant_core
    rw [locStep_of_zero hl0, cuisineStep_of_zero hc0, priceStep_of_zero hp0,
      ratingStep_of_zero hr0, sizeStep_of_zero hs0]
    rfl
  unfold score_restaurant
  rw [hcore]
  rfl

/-! ### Helper lemmas about inactive dislikes -/

lemma blacklistedLocationIds_append_inactive (dislikes : List Dislike)
    {d : Dislike} (h : dislikeActive d = false) :
    blacklistedLocationIds (dislikes ++ [d]) = blacklistedLocationIds dislikes := by
  unfold blacklistedLocationIds
  rw [List.filter_append]
  simp [List.filter_cons, h]

lemma blacklistedPairs_append_inactive (dislikes : List Dislike)
    {d : Dislike} (h : dislikeActive d = false) :
    blacklistedPairs (dislikes ++ [d]) = blacklistedPairs dislikes := by
  unfold blacklistedPairs
  rw [List.filter_append]
  simp [List.filter_cons, h]

lemma isBlacklisted_nil_sets (r : Restaurant) :
    isBlacklisted [] [] r = false := by
  simp [isBlacklisted]

lemma filter_all_inactive {dislikes : List Dislike}
    (h : ∀ d ∈ dislikes, dislikeActive d = false) (pool : List Restaurant) :
    filter_blacklisted_restaurants pool dislikes = pool := by
  unfold filter_blacklisted_restaurants
  split
  · rfl
  · have hids : blacklistedLocationIds dislikes = [] := by
      unfold blacklistedLocationIds
      have : dislikes.filter dislikeActive = [] := by
        rw [List.filter_eq_nil_iff]
        intro d hd
        rw [h d hd]
        simp
      rw [this]
      rfl
    have hpairs : blacklistedPairs dislikes = [] := by
      unfold blacklistedPairs
      have : dislikes.filter dislikeActive = [] := by
        rw [List.filter_eq_nil_iff]
        intro d hd
        rw [h d hd]
        simp
      rw [this]
      rfl
    rw [hids, hpairs]
    simp [isBlacklisted_nil_sets]

/-! ### Concrete records used by witnesses and counterexamples -/

/-- A candidate carrying identity `"R7"`. -/
def w1_restaurant : Restaurant := { location_id := "R7", name := "Bistro" }

/-- An active dislike blacklisting identity `"R7"`. -/
def w1_dislike : Dislike := { is_active := some true, location_id := some "R7" }

/-- A dislike whose active flag is false. -/
def w2_inactive : Dislike :=
  { is_active := some false, location_id := some "R7" }

/-! ### C1 — blacklist exclusivity -/

/-- Claim C1: for every restaurant pool, dislike list and criteria, every
active dislike that matches a candidate by restaurant identity or by
normalized (name, address) keeps that candidate out of the blacklist
filter's output, and hence out of the top-5 recommendation list computed
from the filtered pool. -/
theorem blacklist_exclusivity (pool : List Restaurant)
    (dislikes : List Dislike) (p : ParsedInput) (d : Dislike) (c : Restaurant)
    (hd : d ∈ dislikes) (ha : dislikeActive d = true)
    (hm : matchesByIdentity d c = true ∨ matchesByNameAddress d c = true) :
    c ∉ filter_blacklisted_restaurants pool dislikes ∧
      ∀ t ∈ discover_restaurants pool dislikes p, t.restaurant ≠ c := by
  refine ⟨not_mem_filter_blacklisted hd ha hm, ?_⟩
  intro t ht hceq
  rcases List.mem_map.mp ht with ⟨trip, htrip, htr⟩
  have h2 : trip ∈ sortDesc (scoredList
      (filter_blacklisted_restaurants pool dislikes) p) :=
    List.mem_of_mem_take htrip
  have h3 : trip ∈ scoredList (filter_blacklisted_restaurants pool dislikes) p :=
    (sortDesc_perm _).mem_iff.mp h2
  rcases List.mem_map.mp h3 with ⟨r, hr, heq⟩
  rw [← htr] at hceq
  have hrc : r = c := by
    rw [← heq] at hceq
    exact hceq
  exact not_mem_filter_blacklisted hd ha hm (hrc ▸ hr)

/-- Witness for C1 at a concrete pool: the identity-blacklisted candidate
is gone from the filter output and from the recommendations. -/
theorem blacklist_exclusivity_witness :
    w1_restaurant ∉ filter_blacklisted_restaurants [w1_restaurant] [w1_dislike]
      ∧ ∀ t ∈ discover_restaurants [w1_restaurant] [w1_dislike] {},
          t.restaurant ≠ w1_restaurant :=
  blacklist_exclusivity [w1_restaurant] [w1_dislike] {} w1_dislike w1_restaurant
    (List.mem_singleton.mpr rfl) (by decide) (Or.inl (by decide))

/-! ### C2 — inactive dislikes are inert -/

/-- Claim C2: a dislike whose active flag is false never filters anything:
appending (equivalently, removing) an inactive record leaves the filter
output unchanged, and flipping the only matching record's flag from true
to false lets every pool candidate pass through again. -/
theorem inactive_dislikes_inert :
    (∀ (pool : List Restaurant) (dislikes : List Dislike) (d : Dislike),
      dislikeActive d = false →
      filter_blacklisted_restaurants pool (dislikes ++ [d])
        = filter_blacklisted_restaurants pool dislikes)
    ∧ (∀ (pool : List Restaurant) (d : Dislike) (c : Restaurant),
      c ∈ pool →
      c ∈ filter_blacklisted_restaurants pool [{ d with is_active := some false }]) := by
  constructor
  · intro pool dislikes d h
    cases dislikes with
    | nil =>
      rw [filter_all_inactive (by
        intro e he
        have hede : e = d := by simpa using he
        rw [hede]
        exact h)]
      rfl
    | cons e tl =>
      unfold filter_blacklisted_restaurants
      rw [blacklistedLocationIds_append_inactive _ h,
        blacklistedPairs_append_inactive _ h]
      rfl
  · intro pool d c hc
    rw [filter_all_inactive (by
      intro e he
      rw [List.mem_singleton.mp he]
      rfl)]
    exact hc

/-- Witness for C2 at a concrete pool: the inactive copy of the dislike
changes nothing, and deactivating the dislike readmits the candidate. -/
theorem inactive_dislikes_inert_witness :
    filter_blacklisted_restaurants [w1_restaurant] ([w1_dislike] ++ [w2_inactive])
        = filter_blacklisted_restaurants [w1_restaurant] [w1_dislike]
      ∧ w1_restaurant ∈ filter_blacklisted_restaurants [w1_restaurant]
          [{ w1_dislike with is_active := some false }] :=
  ⟨inactive_dislikes_inert.1 [w1_restaurant] [w1_dislike] w2_inactive (by decide),
    inactive_dislikes_inert.2 [w1_restaurant] w1_dislike w1_restaurant
      (List.mem_singleton.mpr rfl)⟩

/-! ### C8 — idempotent filtering -/

/-- Claim C8: the blacklist filter is idempotent — running it twice on its
own output with the same dislikes equals running it once. -/
theorem filter_blacklisted_idempotent (pool : List Restaurant)
    (dislikes : List Dislike) :
    filter_blacklisted_restaurants
        (filter_blacklisted_restaurants pool dislikes) dislikes
      = filter_blacklisted_restaurants pool dislikes := by
  unfold filter_blacklisted_restaurants
  split
  · rfl
  · rw [List.filter_filter]
    apply List.filter_congr
    intro r hr
    rw [Bool.and_self]

/-! ### C3 — dual-key matching -/

/-- Candidate carrying its own identity `"LOC-1"` and the address
`Main St 1`. -/
def c3_candidate : Restaurant :=
  { location_id := "LOC-1", name := "Pasta Place",
    address_obj := { street := "Main St 1" } }

/-- Active dislike carrying the distinct identity `"LOC-2"` together with
the candidate's name and address. -/
def c3_dislike : Dislike :=
  { is_active := some true, location_id := some "LOC-2",
    restaurant_name := some "Pasta Place",
    restaurant_address := some "Main St 1" }

/-- Counterexample to C3: dislike and candidate both carry identities and
the identities are distinct, yet the name+address coincidence alone
excludes the candidate — the filter does not restrict the fallback to
records with an absent identity. -/
theorem dual_key_identity_counterexample :
    c3_candidate.location_id = "LOC-1"
      ∧ c3_dislike.location_id = some "LOC-2"
      ∧ matchesByIdentity c3_dislike c3_candidate = false
      ∧ matchesByNameAddress c3_dislike c3_candidate = true
      ∧ filter_blacklisted_restaurants [c3_candidate] [c3_dislike] = [] := by
  refine ⟨rfl, rfl, by decide, by decide, by decide⟩

/-- Amended C3: the filter checks identity first and, whenever the
identity check did not fire, always falls back to normalized
(lower-cased, trimmed) name+address equality — even when the dislike and
the candidate both carry (distinct) identities, so a name+address
coincidence still excludes the candidate. -/
theorem name_address_fallback_overrides_identity (pool : List Restaurant)
    (dislikes : List Dislike) (d : Dislike) (c : Restaurant) (i : String)
    (hd : d ∈ dislikes) (ha : dislikeActive d = true)
    (hdi : d.location_id = some i) (hci : c.location_id ≠ "")
    (hne : i ≠ c.location_id)
    (hm : matchesByNameAddress d c = true) :
    c ∉ filter_blacklisted_restaurants pool dislikes :=
  not_mem_filter_blacklisted hd ha (Or.inr hm)

/-- Witness for the amended C3 at the concrete records of the
counterexample. -/
theorem name_address_fallback_overrides_identity_witness :
    c3_candidate ∉ filter_blacklisted_restaurants [c3_candidate] [c3_dislike] :=
  name_address_fallback_overrides_identity [c3_candidate] [c3_dislike]
    c3_dislike c3_candidate "LOC-2" (List.mem_singleton.mpr rfl) (by decide)
    rfl (by decide) (by decide) (by decide)

/-! ### C9 — empty results are success, not error -/

/-- Claim C9: recommendation generation is total and yields the empty
list — not a failure — when the pool is empty or when every candidate is
excluded by the blacklist filter. -/
theorem empty_results_success :
    (∀ (dislikes : List Dislike) (p : ParsedInput),
      discover_restaurants [] dislikes p = [])
    ∧ (∀ (pool : List Restaurant) (dislikes : List Dislike) (p : ParsedInput),
      (∀ r ∈ pool, ∃ d ∈ dislikes, dislikeActive d = true ∧
        (matchesByIdentity d r = true ∨ matchesByNameAddress d r = true)) →
      discover_restaurants pool dislikes p = []) := by
  constructor
  · intro dislikes p
    unfold discover_restaurants filter_blacklisted_restaurants
    split
    · rfl
    · rfl
  · intro pool dislikes p h
    have hf : filter_blacklisted_restaurants pool dislikes = [] := by
      cases pool with
      | nil =>
        unfold filter_blacklisted_restaurants
        split
        · rfl
        · rfl
      | cons r rs =>
        rcases h r (List.mem_cons_self r rs) with ⟨d, hd, _, _⟩
        have hne : dislikes.isEmpty = false := by
          cases dislikes with
          | nil => cases hd
          | cons e tl => rfl
        unfold filter_blacklisted_restaurants
        rw [hne]
        simp only [Bool.false_eq_true, if_false]
        rw [List.filter_eq_nil_iff]
        intro x hx
        rcases h x hx with ⟨d, hd, ha, hm⟩
        rw [matches_isBlacklisted hd ha hm]
        simp
    unfold discover_restaurants
    rw [hf]
    rfl

/-- Witness for C9: a pool whose only candidate is blacklisted produces
the empty recommendation list. -/
theorem empty_results_success_witness :
    discover_restaurants [w1_restaurant] [w1_dislike] {} = [] :=
  empty_results_success.2 [w1_restaurant] [w1_dislike] {} (by
    intro r hr
    have hrw : r = w1_restaurant := by simpa using hr
    exact ⟨w1_dislike, List.mem_singleton.mpr rfl, by decide,
      Or.inl (by rw [hrw]; decide)⟩)

/-! ### C4 — scoring reference definition -/

/-- Claim C4: the score is exactly the sum of the five sub-scores
(location +2.0 on a case-insensitive substring match against a non-empty
city; cuisine = case-insensitive intersection cardinality under its gate;
price +1.5 when the representative price band value lies in
[budget_min, budget_max]; rating/2 when rating > 0; +1.0 when the party
size is at most 20), no sub-score ever subtracts, the reasoning fragment
list is never empty, and a zero score forces the single default fragment
`"General recommendation"`. -/
theorem scoring_reference (r : Restaurant) (p : ParsedInput) :
    (score_restaurant r p).1
        = locationSub r p + cuisineSub r p + priceSub r p + ratingSub r
          + sizeSub p
      ∧ 0 ≤ locationSub r p ∧ 0 ≤ cuisineSub r p ∧ 0 ≤ priceSub r p
      ∧ 0 ≤ ratingSub r ∧ 0 ≤ sizeSub p
      ∧ (score_restaurant_core r p).2 ≠ []
      ∧ ((score_restaurant r p).1 = 0 →
          score_restaurant r p = (0, "General recommendation")) :=
  ⟨score_restaurant_fst r p, locationSub_nonneg r p, cuisineSub_nonneg r p,
    priceSub_nonneg r p, ratingSub_nonneg r, sizeSub_nonneg p,
    core_snd_ne_nil r p, fun h => score_zero_default h⟩

/-- A candidate on which no sub-score fires (empty city, no cuisine tags,
rating 0). -/
def r0 : Restaurant := { name := "Nameless" }

/-- Criteria under which no sub-score fires on `r0`: the budget window
[60, 70] misses the representative price 50 and the party size exceeds
20. -/
def p0 : ParsedInput :=
  { location_preference := "x", budget_min := 60, budget_max := 70,
    attendee_count := 21 }

lemma r0_score_zero : (score_restaurant r0 p0).1 = 0 := by
  simp +decide [score_restaurant, score_restaurant_core, defaultStep, sizeStep,
    ratingStep, priceStep, cuisineStep, locStep, locationCond, cuisineCond,
    restPrice, priceLevels, pyLower, containsSub, r0, p0]

/-- Witness for C4: on a candidate where nothing fires the score is 0 and
the reasoning defaults to the single generic fragment. -/
theorem scoring_reference_witness :
    (score_restaurant r0 p0).1 = 0
      ∧ score_restaurant r0 p0 = (0, "General recommendation") :=
  ⟨r0_score_zero,
    (scoring_reference r0 p0).2.2.2.2.2.2.2 r0_score_zero⟩

/-! ### C10 — unknown price bands are scored as "$$" -/

/-- Claim C10: when `price_level` is missing or not one of the four known
bands, the representative price is 50 (the `"$$"` value), so the +1.5
price bonus fires exactly when 50 lies within [budget_min, budget_max]. -/
theorem unknown_price_level_default (r : Restaurant) (p : ParsedInput)
    (h : ∀ s, r.price_level = some s → priceLevels s = none) :
    restPrice r = 50
      ∧ (score_restaurant r p).1
          = locationSub r p + cuisineSub r p
            + (if p.budget_min ≤ 50 ∧ (50 : ℚ) ≤ p.budget_max then 3 / 2 else 0)
            + ratingSub r + sizeSub p := by
  have hp : restPrice r = 50 := by
    unfold restPrice
    cases hpl : r.price_level with
    | none => rfl
    | some s => rw [Option.getD_some, h s hpl]; rfl
  refine ⟨hp, ?_⟩
  rw [score_restaurant_fst r p]
  unfold priceSub
  rw [hp]

/-- A candidate whose `price_level` is present but not a known band. -/
def r10 : Restaurant := { name := "Euro", price_level := some "€€" }

/-- Criteria with the default open budget window [0, 1000]. -/
def p10 : ParsedInput := { location_preference := "y" }

/-- Witness for C10: the unknown band is priced at 50 and, with the open
budget window containing 50, the decomposition carries the +1.5 term. -/
theorem unknown_price_level_default_witness :
    restPrice r10 = 50
      ∧ (score_restaurant r10 p10).1
          = locationSub r10 p10 + cuisineSub r10 p10
            + (if p10.budget_min ≤ 50 ∧ (50 : ℚ) ≤ p10.budget_max then 3 / 2 else 0)
            + ratingSub r10 + sizeSub p10 :=
  unknown_price_level_default r10 p10 (by
    intro s hs
    have hss : s = "€€" := by
      have : some "€€" = some s := hs
      exact (Option.some_injective _ this).symm
    rw [hss]
    decide)

/-! ### C5 — the "Any" sentinel -/

/-- A candidate with one cuisine tag and nothing else that can score. -/
def c5_restaurant : Restaurant := { name := "Trattoria", cuisine := ["Italian"] }

/-- Criteria carrying the `"Any"` sentinel alongside a specific cuisine
tag, with every other sub-score disabled (budget window [60, 70] misses
50, party size 21). -/
def c5_input : ParsedInput :=
  { location_preference := "Amsterdam",
    cuisine_preferences := ["Any", "Italian"],
    budget_min := 60, budget_max := 70, attendee_count := 21 }

lemma c5_score_zero : (score_restaurant c5_restaurant c5_input).1 = 0 := by
  simp +decide [score_restaurant, score_restaurant_core, defaultStep, sizeStep,
    ratingStep, priceStep, cuisineStep, locStep, locationCond, cuisineCond,
    restPrice, priceLevels, c5_restaurant, c5_input, matchingCuisines,
    pyLower, containsSub]

/-- Counterexample to C5: with `"Any"` present alongside the specific tag
`"Italian"`, the case-insensitive intersection is non-empty (cardinality
1) yet contributes nothing — the whole score is 0 because the code
suppresses the cuisine sub-score whenever `"Any"` occurs at all, not only
when it is the sole tag. -/
theorem any_sentinel_counterexample :
    "Any" ∈ c5_input.cuisine_preferences
      ∧ (matchingCuisines c5_restaurant c5_input).length = 1
      ∧ (score_restaurant c5_restaurant c5_input).1 = 0 :=
  ⟨by decide, by decide, c5_score_zero⟩

/-- Amended C5: the cuisine sub-score is suppressed whenever `"Any"`
appears among the criteria cuisine tags — even alongside specific tags —
and the case-insensitive intersection contributes only when `"Any"` is
entirely absent (and both tag lists are non-empty). -/
theorem any_sentinel_suppresses (r : Restaurant) (p : ParsedInput) :
    ("Any" ∈ p.cuisine_preferences →
        cuisineSub r p = 0
        ∧ (score_restaurant r p).1
            = locationSub r p + priceSub r p + ratingSub r + sizeSub p)
    ∧ ("Any" ∉ p.cuisine_preferences → r.cuisine ≠ [] →
        p.cuisine_preferences ≠ [] →
        cuisineSub r p = ((matchingCuisines r p).length : ℚ)) := by
  constructor
  · intro hmem
    have hcond : cuisineCond r p = false := by
      unfold cuisineCond
      have hc : p.cuisine_preferences.contains "Any" = true := by
        simpa using hmem
      rw [hc]
      simp
    have h0 : cuisineSub r p = 0 := by
      unfold cuisineSub
      rw [hcond]
      simp
    refine ⟨h0, ?_⟩
    rw [score_restaurant_fst r p, h0]
    ring
  · intro hmem hrc hpc
    have h1 : r.cuisine.isEmpty = false := by
      simpa [List.isEmpty_iff] using hrc
    have h2 : p.cuisine_preferences.isEmpty = false := by
      simpa [List.isEmpty_iff] using hpc
    have h3 : p.cuisine_preferences.contains "Any" = false := by
      simpa using hmem
    have hcond : cuisineCond r p = true := by
      unfold cuisineCond
      rw [h1, h2, h3]
      rfl
    unfold cuisineSub
    rw [hcond]
    simp

/-- Witness for the amended C5 at the counterexample's records. -/
theorem any_sentinel_suppresses_witness :
    cuisineSub c5_restaurant c5_input = 0
      ∧ (score_restaurant c5_restaurant c5_input).1
          = locationSub c5_restaurant c5_input
            + priceSub c5_restaurant c5_input + ratingSub c5_restaurant
            + sizeSub c5_input :=
  (any_sentinel_suppresses c5_restaurant c5_input).1 (by decide)

/-! ### C6 — alcohol aggregation -/

/-- An attendee whose stored preference is the literal `"required"` (a
value outside the repository's validated vocabulary). -/
def c6_required : AttendeePreference := { alcohol_preference := some "required" }

/-- An attendee with no preference. -/
def c6_nopref : AttendeePreference :=
  { alcohol_preference := some "no-preference" }

/-- An attendee whose preference is `"alcoholic"`, the repository's
vocabulary for requiring alcohol (`routes/user_routes.py` validates
`alcohol_preference ∈ {alcoholic, non-alcoholic, no-preference}`). -/
def c6_alcoholic : AttendeePreference :=
  { alcohol_preference := some "alcoholic" }

/-- Counterexample to C6: one attendee at `"required"` and one at
`"no-preference"` yield an aggregated flag of `false`, because the code
tests for the literal `'alcoholic'`, not `'required'`. -/
theorem alcohol_union_counterexample :
    c6_required.alcohol_preference.getD "no-preference" = "required"
      ∧ c6_nopref.alcohol_preference.getD "no-preference" = "no-preference"
      ∧ alcohol_required [c6_required, c6_nopref] = false := by
  refine ⟨rfl, rfl, by decide⟩

/-- Amended C6: the aggregated alcohol-required flag is true exactly when
at least one attendee's preference (defaulted to `"no-preference"`) is
the literal `"alcoholic"` — a safety-style union over the repository's
actual preference vocabulary. -/
theorem alcohol_required_iff (prefs : List AttendeePreference) :
    alcohol_required prefs = true
      ↔ ∃ q ∈ prefs, q.alcohol_preference.getD "no-preference" = "alcoholic" := by
  unfold alcohol_required alcoholPreferences
  simp [List.mem_map, eq_comm]

/-- Witness for the amended C6: one attendee at `"alcoholic"` alongside
one at `"no-preference"` sets the flag. -/
theorem alcohol_required_iff_witness :
    alcohol_required [c6_alcoholic, c6_nopref] = true :=
  (alcohol_required_iff [c6_alcoholic, c6_nopref]).mpr
    ⟨c6_alcoholic, List.mem_cons_self _ _, by decide⟩

/-! ### C7 — ranker: top 5, descending, stable -/

lemma sortDesc_filter_stable (s : ℚ) (l : List Scored) :
    (sortDesc l).filter (fun z => z.1 == s) = l.filter (fun z => z.1 == s) := by
  induction l with
  | nil => rfl
  | cons x xs ih =>
    show (insertDesc x (sortDesc xs)).filter _ = _
    rw [filter_insertDesc, ih, List.filter_cons]

/-- Claim C7: the sort used by the ranker is a permutation of the scored
pool, sorted by score descending; candidates with exactly equal scores
keep their pool order (the filter on any fixed score value is unchanged —
stability); every retained entry's score dominates every dropped entry's
score; and the pipeline output is exactly the first five entries of that
sorted list.  As a pure function of the pool it is deterministic across
repeated runs. -/
theorem ranker_top5_stable :
    (∀ l : List Scored,
      (sortDesc l).Pairwise (fun a b => b.1 ≤ a.1)
      ∧ List.Perm (sortDesc l) l
      ∧ (∀ s : ℚ, (sortDesc l).filter (fun z => z.1 == s)
          = l.filter (fun z => z.1 == s))
      ∧ ∀ x ∈ (sortDesc l).take 5, ∀ y ∈ (sortDesc l).drop 5, y.1 ≤ x.1)
    ∧ (∀ (pool : List Restaurant) (dislikes : List Dislike) (p : ParsedInput),
      discover_restaurants pool dislikes p
        = ((sortDesc (scoredList (filter_blacklisted_restaurants pool dislikes) p)).take 5).map
            (fun t => { restaurant := t.2.1, score := t.1, reasoning := t.2.2 })) := by
  refine ⟨fun l => ⟨sortDesc_pairwise l, sortDesc_perm l,
    fun s => sortDesc_filter_stable s l, ?_⟩, fun pool dislikes p => rfl⟩
  intro x hx y hy
  have hp := sortDesc_pairwise l
  rw [← List.take_append_drop 5 (sortDesc l)] at hp
  exact (List.pairwise_append.mp hp).2.2 x hx y hy

/-- A concrete six-entry scored list (already descending). -/
def l6 : List Scored :=
  [(6, w1_restaurant, "a"), (5, w1_restaurant, "b"), (4, w1_restaurant, "c"),
   (3, w1_restaurant, "d"), (2, w1_restaurant, "e"), (1, w1_restaurant, "f")]

/-- Witness for C7 at a six-entry list: the dropped sixth entry's score is
dominated by the retained first entry's score. -/
theorem ranker_top5_stable_witness :
    (((1 : ℚ), w1_restaurant, "f") : Scored).1
      ≤ (((6 : ℚ), w1_restaurant, "a") : Scored).1 :=
  (ranker_top5_stable.1 l6).2.2.2 ((6 : ℚ), w1_restaurant, "a") (by decide)
    ((1 : ℚ), w1_restaurant, "f") (by decide)
